import Mathlib

set_option maxRecDepth 100000

/-!
Shallow embedding of `patent2content_app.py`, a single-file Streamlit app that
uploads a patent PDF, extracts its text with PyMuPDF, and asks the Gemini API
for a summary.  External effects are made explicit: Streamlit messages become
a `Msg` list, the PDF parser and the remote API become input data describing
their outcome, and the Streamlit session state becomes a record threaded
through the handlers.  Python string slicing and `len` act on characters, as
do `pySlice` and `String.length` here.
-/

/-- Messages shown to the user via st.warning / st.info / st.error /
st.sidebar.success and friends.  Icons are omitted; the message text is kept. -/
inductive Msg where
  | warning (s : String)
  | info (s : String)
  | error (s : String)
  | success (s : String)
deriving DecidableEq, Repr

/-- Python truthiness of a string: empty strings are falsy. -/
def truthyStr (s : String) : Bool := s ≠ ""

/-- Python truthiness of an optional string: None and the empty string are falsy. -/
def truthyOpt : Option String → Bool
  | none => false
  | some s => truthyStr s

/-- Python slicing s[:n] by characters. -/
def pySlice (s : String) (n : Nat) : String := String.mk (s.data.take n)

/-- Python substring test needle in hay, via splitting on the needle. -/
def strContains (hay needle : String) : Bool := (hay.splitOn needle).length ≠ 1

/-- The patent_details dictionary of the session state.  Dates are abstracted
to day numbers; all fields start empty / absent. -/
structure PatentDetails where
  patent_number : String
  title : String
  inventors : String
  assignee : String
  filing_date : Option Nat
  publication_date : Option Nat
deriving DecidableEq, Repr

/-- The Streamlit session state keys initialised at the top of the script. -/
structure SessionState where
  patent_details : PatentDetails
  user_notes : String
  pdf_text : Option String
  summary : Option String
  gemini_configured : Bool
  gemini_error : Option String
  uploaded_file_id : Option Nat
deriving DecidableEq, Repr

/-- default_session_state from the top of the script. -/
def default_session_state : SessionState :=
  { patent_details :=
      { patent_number := "", title := "", inventors := "", assignee := ""
        filing_date := none, publication_date := none }
    user_notes := ""
    pdf_text := none
    summary := none
    gemini_configured := false
    gemini_error := none
    uploaded_file_id := none }

/-- extract_text_from_pdf, with the external fitz parser abstracted by its
outcome: Except.ok gives the list of page texts in page order (the value of
page.get_text() for page_num in range(len(doc))); Except.error is any
exception raised while opening or reading the document.  The Python loop
text += page.get_text() is the fold below; the except branch reports the
error with st.error and returns None. -/
def extract_text_from_pdf (parsed : Except String (List String)) :
    Option String × List Msg :=
  match parsed with
  | .ok pages => (some (pages.foldl (fun text p => text ++ p) ""), [])
  | .error e => (none, [Msg.error ("Error extracting text from PDF: " ++ e)])

/-- An API response object, as inspected by the code: parts holds the text of
each response part (truthy iff nonempty); prompt_feedback is none when the
feedback object is falsy, otherwise the block_reason string (possibly empty,
i.e. falsy); safety_ratings is none when candidates are absent or their
safety_ratings are falsy, otherwise the ratings rendered as a string. -/
structure ApiResponse where
  parts : List String
  prompt_feedback : Option String
  safety_ratings : Option String
deriving DecidableEq, Repr

/-- response.text: the concatenated text of the response parts. -/
def ApiResponse.text (r : ApiResponse) : String := String.join r.parts

/-- Outcome of model.generate_content: a response object, or an exception. -/
inductive ApiOutcome where
  | success (resp : ApiResponse)
  | exception (e : String)
deriving DecidableEq, Repr

/-- block_reason computed in the blocked branch: "Unknown" default, replaced
by prompt_feedback.block_reason or "Not specified" when feedback is truthy. -/
def blockReasonOf (r : ApiResponse) : String :=
  match r.prompt_feedback with
  | none => "Unknown"
  | some br => if br = "" then "Not specified" else br

/-- safety_ratings string in the blocked branch: "N/A" default, replaced by
the candidate ratings when present and truthy. -/
def safetyRatingsOf (r : ApiResponse) : String :=
  match r.safety_ratings with
  | none => "N/A"
  | some sr => sr

/-- max_chars = 100000 in summarize_patent_with_gemini. -/
def max_chars : Nat := 100000

/-- The fixed prompt text that precedes the interpolated patent text. -/
def promptBefore : String :=
  "\n    Please act as a patent analyst and provide a concise summary of the following patent document text. Focus on these key aspects:\n\n    1.  **Problem Solved:** Briefly describe the technical problem or need the invention aims to address, as stated in the background or summary sections.\n    2.  **Core Invention/Solution:** Explain the main technical concept, mechanism, or process disclosed. What is the essence of the invention described? Focus on the primary innovation outlined in the summary/detailed description.\n    3.  **Key Features/Advantages:** Highlight 1-3 key distinguishing features, components, steps, or advantages mentioned in the description that characterize the invention.\n    4.  **Field of Invention:** Briefly state the technical field this invention belongs to, if readily apparent.\n\n    Keep the summary factual, objective, and focused on the technical disclosure. Avoid interpreting claim scope or providing legal opinions. Use clear language suitable for someone understanding the technology. Aim for 2-4 paragraphs.\n\n    Patent Text:\n    ---\n    "

/-- The fixed prompt text that follows the interpolated patent text. -/
def promptAfter : String := "\n    ---\n    Patent Summary:\n    "

/-- Prompt construction: the f-string template with truncated_text interpolated. -/
def buildPrompt (truncated_text : String) : String :=
  promptBefore ++ truncated_text ++ promptAfter

/-- What one call of summarize_patent_with_gemini did: its return value, the
messages it showed, how many times it invoked model.generate_content, and the
prompt it sent (when it called at all). -/
structure SummarizeResult where
  result : Option String
  messages : List Msg
  apiCalls : Nat
  promptSent : Option String
deriving DecidableEq, Repr

/-- summarize_patent_with_gemini.  gemini_configured mirrors
st.session_state.gemini_configured; modelPresent is model is not None;
text_to_summarize is the text argument (None or a string); api is the outcome
the remote call would have (only consulted if a call is made). -/
def summarize_patent_with_gemini (gemini_configured : Bool) (modelPresent : Bool)
    (text_to_summarize : Option String) (api : ApiOutcome) : SummarizeResult :=
  if gemini_configured = false ∨ modelPresent = false then
    { result := none
      messages := [Msg.warning "Gemini not configured. Cannot summarize."]
      apiCalls := 0, promptSent := none }
  else if truthyOpt text_to_summarize = false ∨ (text_to_summarize.getD "").length < 100 then
    { result := none
      messages := [Msg.warning "Not enough text extracted from PDF to summarize effectively."]
      apiCalls := 0, promptSent := none }
  else
    let text := text_to_summarize.getD ""
    let truncated_text := pySlice text max_chars
    let preMsgs : List Msg :=
      if max_chars < text.length then
        [Msg.info "Summarizing the first 100,000 characters due to length limit."]
      else []
    let prompt := buildPrompt truncated_text
    match api with
    | .success resp =>
      if resp.parts ≠ [] then
        { result := some resp.text, messages := preMsgs
          apiCalls := 1, promptSent := some prompt }
      else
        { result := none
          messages := preMsgs ++
            [Msg.error ("Summary generation failed or was blocked. Reason: " ++
              blockReasonOf resp ++ ". Safety Ratings: " ++ safetyRatingsOf resp)]
          apiCalls := 1, promptSent := some prompt }
    | .exception e =>
      { result := none
        messages := preMsgs ++ [Msg.error ("Gemini API Error during generation: " ++ e)] ++
          (if strContains e "API key not valid" then
            [Msg.error "The API Key configured in Secrets appears invalid."]
          else if strContains e.toLower "quota" then
            [Msg.error "You may have exceeded your Gemini API quota."]
          else [])
        apiCalls := 1, promptSent := some prompt }

instance {ε α : Type _} [DecidableEq ε] [DecidableEq α] : DecidableEq (Except ε α) :=
  fun x y =>
    match x, y with
    | .ok a, .ok b => if h : a = b then .isTrue (by rw [h]) else .isFalse (by simp [h])
    | .error a, .error b => if h : a = b then .isTrue (by rw [h]) else .isFalse (by simp [h])
    | .ok _, .error _ => .isFalse (by simp)
    | .error _, .ok _ => .isFalse (by simp)

/-- An uploaded file as the module-level code sees it: the file_id assigned by
Streamlit per upload, and the fitz parse outcome of its bytes (the bytes
themselves matter only through this outcome). -/
structure UploadedFile where
  file_id : Nat
  parsed : Except String (List String)
deriving DecidableEq, Repr

/-- The on_change lambda of the file_uploader: when the uploader value became
None (file removed) it resets pdf_text, summary and uploaded_file_id; when a
file is present it does nothing. -/
def uploader_on_change (s : SessionState) (pdf_uploader_patent : Option UploadedFile) :
    SessionState :=
  match pdf_uploader_patent with
  | none => { s with pdf_text := none, summary := none, uploaded_file_id := none }
  | some _ => s

/-- Result of the module-level upload-processing block: the updated state, the
messages shown, and whether extract_text_from_pdf was run this cycle. -/
structure UploadOutcome where
  state : SessionState
  messages : List Msg
  didExtract : Bool
deriving DecidableEq, Repr

/-- The upload-processing block guarded by
if st.session_state.pdf_text is None or current_file_id != st.session_state.uploaded_file_id.
Inside it the code extracts text from the fresh bytes, resets summary, stores
the new file_id, and reports success (text truthy) or failure in the sidebar.
The char-count success message keeps the length but not the Python
thousands-separator formatting. -/
def process_upload (s : SessionState) (uploaded_file : UploadedFile) : UploadOutcome :=
  let current_file_id := uploaded_file.file_id
  if s.pdf_text = none ∨ some current_file_id ≠ s.uploaded_file_id then
    let extracted := extract_text_from_pdf uploaded_file.parsed
    let s1 := { s with pdf_text := extracted.1, summary := none
                       uploaded_file_id := some current_file_id }
    let sideMsg :=
      if truthyOpt s1.pdf_text then
        Msg.success ("PDF text extracted (" ++
          toString (s1.pdf_text.getD "").length ++ " chars).")
      else
        Msg.error "Failed to extract text. Cannot generate summary."
    { state := s1, messages := extracted.2 ++ [sideMsg], didExtract := true }
  else
    { state := s, messages := [], didExtract := false }

/-- summarize_button_disabled from the render code:
not st.session_state.gemini_configured or not st.session_state.pdf_text. -/
def summarize_button_disabled (s : SessionState) : Bool :=
  !s.gemini_configured || !truthyOpt s.pdf_text

/-- Result of the summarize-button handler body. -/
structure ClickOutcome where
  state : SessionState
  messages : List Msg
  apiCalls : Nat
deriving DecidableEq, Repr

/-- Body of if st.button("Generate Patent Summary", ...): re-checks config,
text and model, calls summarize_patent_with_gemini, and stores the summary
only when the returned value is truthy; otherwise warns.  The elif branches
cover missing text and an unconfigured API. -/
def handle_summarize_click (s : SessionState) (modelPresent : Bool)
    (api : ApiOutcome) : ClickOutcome :=
  if s.gemini_configured = true ∧ truthyOpt s.pdf_text = true ∧ modelPresent = true then
    let r := summarize_patent_with_gemini s.gemini_configured modelPresent s.pdf_text api
    match r.result with
    | some summary_result =>
      if truthyStr summary_result then
        { state := { s with summary := some summary_result }
          messages := r.messages, apiCalls := r.apiCalls }
      else
        { state := s
          messages := r.messages ++
            [Msg.warning "Summary generation failed or was blocked. Check errors above."]
          apiCalls := r.apiCalls }
    | none =>
      { state := s
        messages := r.messages ++
          [Msg.warning "Summary generation failed or was blocked. Check errors above."]
        apiCalls := r.apiCalls }
  else if truthyOpt s.pdf_text = false then
    { state := s, messages := [Msg.warning "Cannot generate summary - PDF text missing."]
      apiCalls := 0 }
  else
    { state := s, messages := [Msg.error "Cannot generate summary - Gemini not configured."]
      apiCalls := 0 }

/-- Outcome of the st.secrets lookup of GEMINI_API_KEY at the top of each run:
a KeyError, some other exception, or the stored value (possibly empty). -/
inductive SecretsLookup where
  | keyError
  | otherError (e : String)
  | found (value : String)
deriving DecidableEq, Repr

/-- What the API-configuration block leaves behind: the session flags, whether
gemini_model is a model instance (not None), and the sidebar messages. -/
structure ConfigResult where
  gemini_configured : Bool
  gemini_error : Option String
  modelPresent : Bool
  messages : List Msg
deriving DecidableEq, Repr

/-- The API-configuration block (run every cycle): gemini_configured and
gemini_error are first reset, then the secret is read and genai configured.
configure_exc is the exception, if any, raised by genai.configure or
GenerativeModel when a truthy key is found. -/
def configure_gemini (secrets : SecretsLookup) (configure_exc : Option String) :
    ConfigResult :=
  match secrets with
  | .found api_key_to_use =>
    if truthyStr api_key_to_use then
      match configure_exc with
      | none =>
        { gemini_configured := true, gemini_error := none, modelPresent := true
          messages := [Msg.success "Gemini API Configured via Secrets."] }
      | some e =>
        { gemini_configured := false, gemini_error := some e, modelPresent := false
          messages := [Msg.error ("Failed to configure Gemini: " ++ e)] }
    else
      { gemini_configured := false, gemini_error := none, modelPresent := false
        messages := [Msg.warning "Gemini API Key is missing or empty in Streamlit Secrets."] }
  | .keyError =>
    { gemini_configured := false, gemini_error := none, modelPresent := false
      messages := [Msg.error "Required secret GEMINI_API_KEY not found. Please add it in the Streamlit Cloud app settings."] }
  | .otherError e =>
    { gemini_configured := false, gemini_error := some e, modelPresent := false
      messages := [Msg.error ("An error occurred during API setup: " ++ e)] }

/-- Writing the configuration results into the session state (the assignments
to st.session_state.gemini_configured / gemini_error during the block). -/
def apply_config (s : SessionState) (cfg : ConfigResult) : SessionState :=
  { s with gemini_configured := cfg.gemini_configured
           gemini_error := cfg.gemini_error }

/-- Inputs that drive one Streamlit rerun: the secrets lookup, a possible
configuration exception, whether the uploader value just changed (firing
on_change before the script body), the current uploader value, whether the
summarize button reports a click, and the outcome a generate_content call
would have. -/
structure CycleInput where
  secrets : SecretsLookup
  configure_exc : Option String
  uploader_changed : Bool
  uploaded_file : Option UploadedFile
  button_clicked : Bool
  api : ApiOutcome
deriving DecidableEq, Repr

/-- Observables of one full rerun. -/
structure CycleOutcome where
  state : SessionState
  modelPresent : Bool
  button_disabled : Bool
  apiCalls : Nat
deriving DecidableEq, Repr

/-- One full script rerun: the on_change callback (when the uploader changed),
then the configuration block, then — only when a file is present — the
upload-processing block and the summarize button.  A disabled button cannot
report a click; with no file the button is not rendered at all. -/
def run_cycle (s : SessionState) (inp : CycleInput) : CycleOutcome :=
  let s0 := if inp.uploader_changed then uploader_on_change s inp.uploaded_file else s
  let cfg := configure_gemini inp.secrets inp.configure_exc
  let s1 := apply_config s0 cfg
  match inp.uploaded_file with
  | some f =>
    let up := process_upload s1 f
    let disabled := summarize_button_disabled up.state
    if inp.button_clicked = true ∧ disabled = false then
      let click := handle_summarize_click up.state cfg.modelPresent inp.api
      { state := click.state, modelPresent := cfg.modelPresent
        button_disabled := disabled, apiCalls := click.apiCalls }
    else
      { state := up.state, modelPresent := cfg.modelPresent
        button_disabled := disabled, apiCalls := 0 }
  | none =>
    { state := s1, modelPresent := cfg.modelPresent
      button_disabled := summarize_button_disabled s1, apiCalls := 0 }

/-- The truncation notice shown when the input exceeds max_chars. -/
def truncNotice : Msg :=
  Msg.info "Summarizing the first 100,000 characters due to length limit."

theorem pySlice_length (s : String) (n : Nat) : (pySlice s n).length = min n s.length :=
  List.length_take n s.data

theorem pySlice_of_length_le (s : String) (n : Nat) (h : s.length ≤ n) :
    pySlice s n = s := by
  cases s with
  | mk data => exact congrArg String.mk (List.take_of_length_le h)

theorem String.length_eq_zero_iff_local (t : String) (h : t = "") : t.length = 0 := by
  rw [h]; rfl

theorem ne_empty_of_hundred_le (t : String) (h100 : 100 ≤ t.length) : t ≠ "" := by
  intro h
  have h0 : t.length = 0 := by rw [h]; rfl
  omega

theorem truthyOpt_some_of_ne (t : String) (h : t ≠ "") : truthyOpt (some t) = true := by
  simp [truthyOpt, truthyStr, h]

/-- Once the guards pass (configured, model present, text at least 100 chars),
summarize_patent_with_gemini is the prompt-building and response-inspection
body. -/
theorem summarize_of_valid_text (t : String) (api : ApiOutcome) (h100 : 100 ≤ t.length) :
    summarize_patent_with_gemini true true (some t) api =
      (match api with
      | .success resp =>
        if resp.parts ≠ [] then
          { result := some resp.text
            messages := if max_chars < t.length then [truncNotice] else []
            apiCalls := 1, promptSent := some (buildPrompt (pySlice t max_chars)) }
        else
          { result := none
            messages := (if max_chars < t.length then [truncNotice] else []) ++
              [Msg.error ("Summary generation failed or was blocked. Reason: " ++
                blockReasonOf resp ++ ". Safety Ratings: " ++ safetyRatingsOf resp)]
            apiCalls := 1, promptSent := some (buildPrompt (pySlice t max_chars)) }
      | .exception e =>
          { result := none
            messages := (if max_chars < t.length then [truncNotice] else []) ++
              [Msg.error ("Gemini API Error during generation: " ++ e)] ++
              (if strContains e "API key not valid" then
                [Msg.error "The API Key configured in Secrets appears invalid."]
              else if strContains e.toLower "quota" then
                [Msg.error "You may have exceeded your Gemini API quota."]
              else [])
            apiCalls := 1, promptSent := some (buildPrompt (pySlice t max_chars)) }) := by
  have hne := ne_empty_of_hundred_le t h100
  have htru := truthyOpt_some_of_ne t hne
  unfold summarize_patent_with_gemini
  rw [if_neg (by simp), if_neg (by simp [htru]; omega)]
  rfl

/-- A 150-character text used as a concrete valid input in witnesses. -/
def t150 : String := String.mk (List.replicate 150 'a')

/-- The upload-processing block when its guard holds: extraction runs, the
summary is reset, and the new file id is stored. -/
theorem process_upload_pos (s : SessionState) (f : UploadedFile)
    (h : s.pdf_text = none ∨ some f.file_id ≠ s.uploaded_file_id) :
    process_upload s f =
      { state := { s with pdf_text := (extract_text_from_pdf f.parsed).1, summary := none
                          uploaded_file_id := some f.file_id }
        messages := (extract_text_from_pdf f.parsed).2 ++
          [if truthyOpt (extract_text_from_pdf f.parsed).1 then
             Msg.success ("PDF text extracted (" ++
               toString ((extract_text_from_pdf f.parsed).1.getD "").length ++ " chars).")
           else Msg.error "Failed to extract text. Cannot generate summary."]
        didExtract := true } := by
  simp only [process_upload]
  rw [if_pos h]

/-- The upload-processing block when its guard fails: nothing happens. -/
theorem process_upload_neg (s : SessionState) (f : UploadedFile)
    (h : ¬(s.pdf_text = none ∨ some f.file_id ≠ s.uploaded_file_id)) :
    process_upload s f = { state := s, messages := [], didExtract := false } := by
  simp only [process_upload]
  rw [if_neg h]

/-- The upload-processing block never writes patent_details, user_notes or the
configuration flags. -/
theorem process_upload_state_frame (s : SessionState) (f : UploadedFile) :
    (process_upload s f).state.patent_details = s.patent_details ∧
    (process_upload s f).state.user_notes = s.user_notes ∧
    (process_upload s f).state.gemini_configured = s.gemini_configured ∧
    (process_upload s f).state.gemini_error = s.gemini_error := by
  by_cases h : s.pdf_text = none ∨ some f.file_id ≠ s.uploaded_file_id
  · rw [process_upload_pos s f h]; exact ⟨rfl, rfl, rfl, rfl⟩
  · rw [process_upload_neg s f h]; exact ⟨rfl, rfl, rfl, rfl⟩

/-- C1: with the API configured and input of length at least 100,
summarize_patent_with_gemini builds its prompt from the first max_chars
characters of the text; text over the cap is cut to exactly max_chars and the
truncation notice is shown, while text at or under the cap is interpolated
unchanged. -/
theorem summarize_truncation (t : String) (api : ApiOutcome) (h100 : 100 ≤ t.length) :
    (summarize_patent_with_gemini true true (some t) api).promptSent
        = some (buildPrompt (pySlice t max_chars)) ∧
    (max_chars < t.length →
      (pySlice t max_chars).length = max_chars ∧
      truncNotice ∈ (summarize_patent_with_gemini true true (some t) api).messages) ∧
    (t.length ≤ max_chars → pySlice t max_chars = t) := by
  rw [summarize_of_valid_text t api h100]
  refine ⟨?_, fun hcap => ⟨?_, ?_⟩, fun hle => pySlice_of_length_le t max_chars hle⟩
  · cases api with
    | success resp =>
      by_cases hp : resp.parts = [] <;> simp [hp]
    | exception e => rfl
  · rw [pySlice_length]; omega
  · cases api with
    | success resp =>
      by_cases hp : resp.parts = [] <;> simp [hp, hcap]
    | exception e => simp [hcap]

/-- C1 witness: a concrete 150-character input passes the length guard, and
the prompt is built from its (here trivial) truncation. -/
theorem summarize_truncation_witness :
    100 ≤ t150.length ∧
    (summarize_patent_with_gemini true true (some t150)
        (ApiOutcome.exception "boom")).promptSent
      = some (buildPrompt (pySlice t150 max_chars)) :=
  ⟨by decide, (summarize_truncation t150 (ApiOutcome.exception "boom") (by decide)).1⟩

/-- C4: whatever the configuration, a text that is empty or shorter than 100
characters makes summarize_patent_with_gemini return None with a warning and
issue no model.generate_content call. -/
theorem summarize_short_input (cfg mp : Bool) (t : String) (api : ApiOutcome)
    (hshort : t.length < 100) :
    (summarize_patent_with_gemini cfg mp (some t) api).result = none ∧
    (summarize_patent_with_gemini cfg mp (some t) api).apiCalls = 0 ∧
    ∃ m, Msg.warning m ∈ (summarize_patent_with_gemini cfg mp (some t) api).messages := by
  unfold summarize_patent_with_gemini
  by_cases h1 : cfg = false ∨ mp = false
  · rw [if_pos h1]
    exact ⟨rfl, rfl, "Gemini not configured. Cannot summarize.", by simp⟩
  · have hshort2 : ((some t).getD "").length < 100 := hshort
    rw [if_neg h1, if_pos (Or.inr hshort2)]
    exact ⟨rfl, rfl, "Not enough text extracted from PDF to summarize effectively.", by simp⟩

/-- C4 witness: the empty string is rejected without an API call. -/
theorem summarize_short_input_witness :
    ("" : String).length < 100 ∧
    (summarize_patent_with_gemini true true (some "") (ApiOutcome.exception "boom")).result
        = none ∧
    (summarize_patent_with_gemini true true (some "") (ApiOutcome.exception "boom")).apiCalls
        = 0 :=
  ⟨by decide,
   (summarize_short_input true true "" (ApiOutcome.exception "boom") (by decide)).1,
   (summarize_short_input true true "" (ApiOutcome.exception "boom") (by decide)).2.1⟩

/-- C8: extract_text_from_pdf returns the page texts concatenated in page
order when the bytes parse as a PDF, and on a parse failure it reports the
error and returns None instead of raising (the embedding is a total
function, so no exception escapes). -/
theorem extract_concat_or_signal (parsed : Except String (List String)) :
    (∀ pages, parsed = Except.ok pages →
      extract_text_from_pdf parsed = (some (String.join pages), [])) ∧
    (∀ e, parsed = Except.error e →
      (extract_text_from_pdf parsed).1 = none ∧
      (extract_text_from_pdf parsed).2
        = [Msg.error ("Error extracting text from PDF: " ++ e)]) := by
  constructor
  · rintro pages rfl; rfl
  · rintro e rfl; exact ⟨rfl, rfl⟩

/-- C8 witness: a two-page parse concatenates in order; a failing parse yields
None. -/
theorem extract_concat_or_signal_witness :
    extract_text_from_pdf (Except.ok ["ab", "cd"]) = (some (String.join ["ab", "cd"]), []) ∧
    (extract_text_from_pdf (Except.error "bad")).1 = none :=
  ⟨(extract_concat_or_signal (Except.ok ["ab", "cd"])).1 ["ab", "cd"] rfl,
   ((extract_concat_or_signal (Except.error "bad")).2 "bad" rfl).1⟩

/-- C10: neither the on_change reset nor the upload-processing block touches
patent_details or user_notes; the reset writes exactly pdf_text, summary and
uploaded_file_id. -/
theorem upload_reset_frame (s : SessionState) (v : Option UploadedFile) (f : UploadedFile) :
    (uploader_on_change s v).patent_details = s.patent_details ∧
    (uploader_on_change s v).user_notes = s.user_notes ∧
    (process_upload s f).state.patent_details = s.patent_details ∧
    (process_upload s f).state.user_notes = s.user_notes ∧
    (uploader_on_change s v).gemini_configured = s.gemini_configured ∧
    (uploader_on_change s v).gemini_error = s.gemini_error ∧
    uploader_on_change s none =
      { s with pdf_text := none, summary := none, uploaded_file_id := none } := by
  refine ⟨?_, ?_, (process_upload_state_frame s f).1, (process_upload_state_frame s f).2.1,
    ?_, ?_, rfl⟩
  · cases v <;> rfl
  · cases v <;> rfl
  · cases v <;> rfl
  · cases v <;> rfl

/-- C2: uploading a document whose file_id differs from the stored
uploaded_file_id always runs extraction afresh, leaves summary cleared and
pdf_text equal to the fresh extraction; the prior pdf_text and summary have no
influence on the outcome (the block behaves exactly as if both were cleared
before extraction started). -/
theorem new_upload_clears (s : SessionState) (f : UploadedFile)
    (hnew : some f.file_id ≠ s.uploaded_file_id) :
    (process_upload s f).didExtract = true ∧
    (process_upload s f).state.summary = none ∧
    (process_upload s f).state.pdf_text = (extract_text_from_pdf f.parsed).1 ∧
    process_upload s f = process_upload { s with pdf_text := none, summary := none } f := by
  rw [process_upload_pos s f (Or.inr hnew),
    process_upload_pos { s with pdf_text := none, summary := none } f (Or.inl rfl)]
  exact ⟨rfl, rfl, rfl, rfl⟩

/-- C2 witness: a first upload (stored id None, so any id is new) extracts and
leaves the summary cleared. -/
theorem new_upload_clears_witness :
    some (1 : Nat) ≠ default_session_state.uploaded_file_id ∧
    (process_upload default_session_state
        { file_id := 1, parsed := Except.ok ["page one"] }).state.summary = none :=
  ⟨by decide,
   (new_upload_clears default_session_state
      { file_id := 1, parsed := Except.ok ["page one"] } (by decide)).2.1⟩

/-- A state in which a previous extraction failed: the stored id matches the
file about to be processed but pdf_text is None. -/
def failedExtractState : SessionState :=
  { default_session_state with uploaded_file_id := some 5, pdf_text := none }

/-- A file whose id equals the one stored in failedExtractState. -/
def sameIdFile : UploadedFile := { file_id := 5, parsed := Except.ok ["page one text"] }

/-- C3 counterexample: with the stored identifier unchanged but pdf_text None
(a previously failed extraction), the block re-extracts anyway, so
re-extraction is not equivalent to the identifier changing. -/
theorem reextract_same_id_cex :
    some sameIdFile.file_id = failedExtractState.uploaded_file_id ∧
    (process_upload failedExtractState sameIdFile).didExtract = true := by decide

/-- C3 amended: pdf_text is recomputed if and only if the stored pdf_text is
None or the uploaded identifier differs from the stored one; when the
identifier is unchanged and text is present, the block does nothing. -/
theorem reextract_condition (s : SessionState) (f : UploadedFile) :
    ((process_upload s f).didExtract = true ↔
      s.pdf_text = none ∨ some f.file_id ≠ s.uploaded_file_id) ∧
    (¬(s.pdf_text = none ∨ some f.file_id ≠ s.uploaded_file_id) →
      process_upload s f = { state := s, messages := [], didExtract := false }) := by
  constructor
  · by_cases h : s.pdf_text = none ∨ some f.file_id ≠ s.uploaded_file_id
    · rw [process_upload_pos s f h]; simpa using h
    · rw [process_upload_neg s f h]; simpa using h
  · exact process_upload_neg s f

/-- C3 amended witness: a present text and an unchanged id leave the state
untouched, and the counterexample state does re-extract. -/
theorem reextract_condition_witness :
    process_upload { failedExtractState with pdf_text := some t150 } sameIdFile
        = { state := { failedExtractState with pdf_text := some t150 }
            messages := [], didExtract := false } ∧
    (process_upload failedExtractState sameIdFile).didExtract = true :=
  ⟨(reextract_condition { failedExtractState with pdf_text := some t150 } sameIdFile).2
      (by decide),
   (reextract_condition failedExtractState sameIdFile).1.mpr (Or.inl rfl)⟩

theorem button_disabled_of_unconfigured (s : SessionState)
    (h : s.gemini_configured = false) : summarize_button_disabled s = true := by
  simp [summarize_button_disabled, h]

/-- C5: when the configuration block leaves gemini_configured false, the
rerun renders the summarize button disabled and issues no API call; and the
function itself, called with the configured flag false, returns None without
calling the API. -/
theorem unconfigured_never_calls (s : SessionState) (inp : CycleInput)
    (hcfg : (configure_gemini inp.secrets inp.configure_exc).gemini_configured = false) :
    (run_cycle s inp).button_disabled = true ∧
    (run_cycle s inp).apiCalls = 0 ∧
    (∀ mp t api, (summarize_patent_with_gemini false mp t api).apiCalls = 0 ∧
      (summarize_patent_with_gemini false mp t api).result = none) := by
  have hfn : ∀ mp t api, (summarize_patent_with_gemini false mp t api).apiCalls = 0 ∧
      (summarize_patent_with_gemini false mp t api).result = none := by
    intro mp t api
    unfold summarize_patent_with_gemini
    rw [if_pos (Or.inl rfl)]
    exact ⟨rfl, rfl⟩
  have key : ∀ (s0 : SessionState) (f : UploadedFile), s0.gemini_configured = false →
      summarize_button_disabled (process_upload s0 f).state = true := by
    intro s0 f h0
    exact button_disabled_of_unconfigured _
      (by rw [(process_upload_state_frame s0 f).2.2.1]; exact h0)
  cases hup : inp.uploaded_file with
  | none =>
    refine ⟨?_, ?_, hfn⟩
    · simp only [run_cycle, hup]
      exact button_disabled_of_unconfigured _ hcfg
    · simp only [run_cycle, hup]
  | some f =>
    have hd := key
      (apply_config (if inp.uploader_changed then uploader_on_change s (some f) else s)
        (configure_gemini inp.secrets inp.configure_exc)) f hcfg
    have hcond : ¬(inp.button_clicked = true ∧
        summarize_button_disabled
          (process_upload
            (apply_config
              (if inp.uploader_changed then uploader_on_change s (some f) else s)
              (configure_gemini inp.secrets inp.configure_exc)) f).state = false) := by
      intro h
      rw [hd] at h
      exact absurd h.2 (by simp)
    refine ⟨?_, ?_, hfn⟩
    · simp only [run_cycle, hup]
      rw [if_neg hcond]
      exact hd
    · simp only [run_cycle, hup]
      rw [if_neg hcond]

/-- A rerun input whose secrets lookup raises KeyError, with a file uploaded
and the button reporting a click. -/
def missingKeyInput : CycleInput :=
  { secrets := SecretsLookup.keyError, configure_exc := none, uploader_changed := false
    uploaded_file := some { file_id := 1, parsed := Except.ok ["page"] }
    button_clicked := true, api := ApiOutcome.exception "boom" }

/-- C5 witness: with the secret missing, the cycle disables the button and
makes no API call even though a click is reported. -/
theorem unconfigured_never_calls_witness :
    (configure_gemini missingKeyInput.secrets missingKeyInput.configure_exc).gemini_configured
        = false ∧
    (run_cycle default_session_state missingKeyInput).button_disabled = true ∧
    (run_cycle default_session_state missingKeyInput).apiCalls = 0 :=
  ⟨rfl, (unconfigured_never_calls default_session_state missingKeyInput rfl).1,
   (unconfigured_never_calls default_session_state missingKeyInput rfl).2.1⟩

/-- A configured session holding a 150-character extracted text. -/
def readyState : SessionState :=
  { default_session_state with gemini_configured := true, pdf_text := some t150 }

/-- A response that has parts, but whose parts carry only empty text. -/
def emptyTextResp : ApiResponse :=
  { parts := [""], prompt_feedback := none, safety_ratings := none }

/-- C6 counterexample: a response with (truthy) parts whose concatenated text
is empty is not stored: the handler keeps summary at None, which differs from
the returned text, so the stored Summary does not always equal the returned
text when the response contains text parts. -/
theorem stored_summary_empty_text_cex :
    emptyTextResp.parts ≠ [] ∧
    (handle_summarize_click readyState true (ApiOutcome.success emptyTextResp)).state.summary
      ≠ some emptyTextResp.text := by decide

/-- C6 amended: when the summarize action runs with extracted text present
(at least 100 chars), the API configured, and the response has text parts
whose concatenated text is non-empty, the stored summary is exactly that
returned text. -/
theorem stored_summary_verbatim (s : SessionState) (resp : ApiResponse) (t : String)
    (hcfg : s.gemini_configured = true) (hpdf : s.pdf_text = some t)
    (h100 : 100 ≤ t.length) (hparts : resp.parts ≠ []) (htext : resp.text ≠ "") :
    (handle_summarize_click s true (ApiOutcome.success resp)).state.summary
      = some resp.text := by
  have hne := ne_empty_of_hundred_le t h100
  have htru : truthyOpt s.pdf_text = true := by
    rw [hpdf]; exact truthyOpt_some_of_ne t hne
  unfold handle_summarize_click
  rw [if_pos ⟨hcfg, htru, rfl⟩, hcfg, hpdf, summarize_of_valid_text t _ h100]
  simp [hparts, truthyStr, htext]

/-- C6 amended witness: a concrete nonempty response text is stored exactly. -/
theorem stored_summary_verbatim_witness :
    (handle_summarize_click readyState true
        (ApiOutcome.success { parts := ["A summary."], prompt_feedback := none
                              safety_ratings := none })).state.summary
      = some (ApiResponse.text { parts := ["A summary."], prompt_feedback := none
                                 safety_ratings := none }) :=
  stored_summary_verbatim readyState _ t150 rfl rfl (by decide) (by decide) (by decide)

/-- C7: a response with no parts produces no summary; the function reports the
block reason and safety ratings in an error message, and the handler leaves
the stored summary unchanged (absent stays absent). -/
theorem blocked_response_reported (s : SessionState) (resp : ApiResponse) (t : String)
    (hcfg : s.gemini_configured = true) (hpdf : s.pdf_text = some t)
    (h100 : 100 ≤ t.length) (hparts : resp.parts = []) :
    (summarize_patent_with_gemini true true (some t) (ApiOutcome.success resp)).result
        = none ∧
    Msg.error ("Summary generation failed or was blocked. Reason: " ++ blockReasonOf resp ++
        ". Safety Ratings: " ++ safetyRatingsOf resp)
      ∈ (summarize_patent_with_gemini true true (some t) (ApiOutcome.success resp)).messages ∧
    (handle_summarize_click s true (ApiOutcome.success resp)).state.summary = s.summary := by
  have hne := ne_empty_of_hundred_le t h100
  have htru : truthyOpt s.pdf_text = true := by
    rw [hpdf]; exact truthyOpt_some_of_ne t hne
  refine ⟨?_, ?_, ?_⟩
  · rw [summarize_of_valid_text t _ h100]; simp [hparts]
  · rw [summarize_of_valid_text t _ h100]; simp [hparts]
  · unfold handle_summarize_click
    rw [if_pos ⟨hcfg, htru, rfl⟩, hcfg, hpdf, summarize_of_valid_text t _ h100]
    simp [hparts]

/-- C7 witness: a blocked response with reason SAFETY leaves summary absent
and reports the reason. -/
theorem blocked_response_reported_witness :
    (summarize_patent_with_gemini true true (some t150)
        (ApiOutcome.success { parts := [], prompt_feedback := some "SAFETY"
                              safety_ratings := none })).result = none ∧
    (handle_summarize_click readyState true
        (ApiOutcome.success { parts := [], prompt_feedback := some "SAFETY"
                              safety_ratings := none })).state.summary
      = readyState.summary :=
  ⟨(blocked_response_reported readyState _ t150 rfl rfl (by decide) rfl).1,
   (blocked_response_reported readyState _ t150 rfl rfl (by decide) rfl).2.2⟩

/-- C9: failures are caught where they occur and converted to messages with an
absent result — a parse failure yields None plus an error message, an API
exception yields None plus an error message when the call was made — and no
retry happens: at most one generate_content call per invocation.  Both
embedded functions are total, so no exception propagates. -/
theorem failures_caught_no_retry (parsed : Except String (List String))
    (cfg mp : Bool) (t : Option String) (api : ApiOutcome) :
    (summarize_patent_with_gemini cfg mp t api).apiCalls ≤ 1 ∧
    (∀ e, parsed = Except.error e →
      (extract_text_from_pdf parsed).1 = none ∧ (extract_text_from_pdf parsed).2 ≠ []) ∧
    (∀ e, api = ApiOutcome.exception e →
      (summarize_patent_with_gemini cfg mp t api).result = none ∧
      ((summarize_patent_with_gemini cfg mp t api).apiCalls = 1 →
        Msg.error ("Gemini API Error during generation: " ++ e)
          ∈ (summarize_patent_with_gemini cfg mp t api).messages)) := by
  refine ⟨?_, ?_, ?_⟩
  · unfold summarize_patent_with_gemini
    by_cases h1 : cfg = false ∨ mp = false
    · rw [if_pos h1]; exact Nat.zero_le 1
    · rw [if_neg h1]
      by_cases h2 : truthyOpt t = false ∨ (t.getD "").length < 100
      · rw [if_pos h2]; exact Nat.zero_le 1
      · rw [if_neg h2]
        cases api with
        | success resp => by_cases hp : resp.parts = [] <;> simp [hp]
        | exception e => exact Nat.le_refl 1
  · rintro e rfl; exact ⟨rfl, by simp [extract_text_from_pdf]⟩
  · rintro e rfl
    unfold summarize_patent_with_gemini
    by_cases h1 : cfg = false ∨ mp = false
    · rw [if_pos h1]
      exact ⟨rfl, by intro h; simp at h⟩
    · rw [if_neg h1]
      by_cases h2 : truthyOpt t = false ∨ (t.getD "").length < 100
      · rw [if_pos h2]; exact ⟨rfl, by intro h; simp at h⟩
      · rw [if_neg h2]; exact ⟨rfl, fun _ => by simp⟩

/-- C9 witness: a failing parse and a raising API call both end in None. -/
theorem failures_caught_no_retry_witness :
    (extract_text_from_pdf (Except.error "corrupt")).1 = none ∧
    (summarize_patent_with_gemini true true (some t150)
        (ApiOutcome.exception "network down")).result = none :=
  ⟨((failures_caught_no_retry (Except.error "corrupt") true true (some t150)
      (ApiOutcome.exception "network down")).2.1 "corrupt" rfl).1,
   ((failures_caught_no_retry (Except.error "corrupt") true true (some t150)
      (ApiOutcome.exception "network down")).2.2 "network down" rfl).1⟩
